import Mathlib

/-!
# Verification of the quiz generation and upload limits of ethio-study-ai

This development embeds the quiz-generation procedure of the `Quiz` page
(`generateQuiz`, `generateQuestionsFromFlashcards`, `handleAnswer`, the
end-of-quiz percentage and message tiers) and the upload-limit gate of the
`Upload` page (`FREE_UPLOAD_LIMIT`, `hasReachedLimit`, `handleUpload`) as
Lean functions, and proves the documented properties about them.

The source shuffles arrays with `Array.prototype.sort` driven by a random
comparator.  Every use of such a shuffle is modelled by a function supplied
by an abstract random source (`Shuffler`); the lawfulness predicate
`Shuffler.IsShuffle` records the one fact true of any comparator-based sort:
the result is a permutation of its input.
-/

/-- A flashcard as selected from the database: `{ question, answer }`. -/
structure Flashcard where
  question : String
  answer : String
deriving DecidableEq, Repr

/-- A generated quiz question: `{ question, options, correctAnswer }`. -/
structure QuizQuestion where
  question : String
  options : List String
  correctAnswer : Nat
deriving DecidableEq, Repr

/-- The abstract random source: one shuffle for the flashcard pool
(`[...flashcards].sort(() => Math.random() - 0.5)`), and for each question
index one shuffle for the wrong-answer pool and one for the options array. -/
structure Shuffler where
  shuffleCards : List Flashcard → List Flashcard
  shuffleAnswers : Nat → List String → List String
  shuffleOptions : Nat → List String → List String

/-- A comparator-based sort always returns a permutation of its input;
this is the only property of the random shuffles the program relies on. -/
def Shuffler.IsShuffle (r : Shuffler) : Prop :=
  (∀ l, (r.shuffleCards l).Perm l) ∧
  (∀ i l, (r.shuffleAnswers i l).Perm l) ∧
  (∀ i l, (r.shuffleOptions i l).Perm l)

/-- The pool the distractors are drawn from:
`flashcards.filter((f) => f.answer !== card.answer).map((f) => f.answer)`. -/
def wrongAnswers (flashcards : List Flashcard) (card : Flashcard) : List String :=
  (flashcards.filter (fun f => f.answer != card.answer)).map (fun f => f.answer)

/-- The body of the `.map((card, index) => ...)` callback in
`generateQuestionsFromFlashcards`: collect the answers of the flashcards
whose answer differs from `card.answer`, shuffle them and keep 3
(`filter ... map ... sort ... slice(0, 3)`), append the correct answer,
shuffle the options (`[...otherAnswers, card.answer].sort(...)`), and set
`correctAnswer` to `options.indexOf(card.answer)`. -/
def mkQuestion (r : Shuffler) (flashcards : List Flashcard) (index : Nat)
    (card : Flashcard) : QuizQuestion :=
  let otherAnswers := (r.shuffleAnswers index (wrongAnswers flashcards card)).take 3
  let options := r.shuffleOptions index (otherAnswers ++ [card.answer])
  { question := card.question
    options := options
    correctAnswer := options.indexOf card.answer }

/-- `generateQuestionsFromFlashcards`: shuffle a copy of the flashcard list,
keep the first `min(10, flashcards.length)` cards, and build one question
per kept card. -/
def generateQuestionsFromFlashcards (r : Shuffler) (flashcards : List Flashcard) :
    List QuizQuestion :=
  let shuffled := r.shuffleCards flashcards
  let numQuestions := min 10 flashcards.length
  ((shuffled.take numQuestions).enum).map (fun p => mkQuestion r flashcards p.1 p.2)

/-- The failure surfaced when fewer than 4 flashcards exist: the toast shown
to the user and the route the user is redirected to. -/
structure InsufficientDataError where
  title : String
  description : String
  redirectTo : String
deriving DecidableEq, Repr

/-- The concrete toast and redirect issued by `generateQuiz` on the
`flashcards.length < 4` branch. -/
def insufficientDataError : InsufficientDataError :=
  { title := "Not Enough Cards"
    description := "Need at least 4 flashcards to generate a quiz"
    redirectTo := "/dashboard" }

/-- `generateQuiz` (the part downstream of the database fetch): with fewer
than 4 flashcards it surfaces the toast and redirects to the dashboard
without producing questions; otherwise it returns the generated
questions. -/
def generateQuiz (r : Shuffler) (flashcards : List Flashcard) :
    Except InsufficientDataError (List QuizQuestion) :=
  if flashcards.length < 4 then Except.error insufficientDataError
  else Except.ok (generateQuestionsFromFlashcards r flashcards)

/-- A random source whose every shuffle is the identity permutation. -/
def idShuffler : Shuffler :=
  { shuffleCards := fun l => l
    shuffleAnswers := fun _ l => l
    shuffleOptions := fun _ l => l }

/-- The react state of the quiz session that `handleAnswer`, `handleNext`
and the completion screen read and write. -/
structure QuizState where
  questions : List QuizQuestion
  currentQuestion : Nat
  selectedAnswer : Option Nat
  showResult : Bool
  score : Nat
  answered : Bool
  quizComplete : Bool
deriving DecidableEq, Repr

/-- `handleAnswer(index)`: a no-op when the question was already answered;
otherwise it records the selection, marks the question answered, shows the
result, and increments the score when `index` hits
`questions[currentQuestion].correctAnswer`. -/
def handleAnswer (s : QuizState) (index : Nat) : QuizState :=
  if s.answered then s
  else
    let base := { s with selectedAnswer := some index, answered := true, showResult := true }
    match s.questions.get? s.currentQuestion with
    | some q => if index = q.correctAnswer then { base with score := s.score + 1 } else base
    | none => base

/-- `Math.round` on a rational: round half toward positive infinity. -/
def jsRound (x : ℚ) : ℤ := ⌊x + 1 / 2⌋

/-- The completion screen's `Math.round((score / questions.length) * 100)`. -/
def quizPercentage (score total : Nat) : ℤ :=
  jsRound ((score : ℚ) / (total : ℚ) * 100)

/-- The message rendered when `percentage >= 90`. -/
def excellentMessage : String := "Excellent! You\x27ve mastered this material!"

/-- The message rendered when `percentage >= 70 && percentage < 90`. -/
def greatJobMessage : String := "Great job! Keep practicing!"

/-- The message rendered when `percentage < 70`. -/
def keepStudyingMessage : String := "Keep studying! You\x27ll get there!"

/-- The three conditionally rendered end-of-quiz messages, in render order:
each condition contributes its paragraph when it holds. -/
def resultMessages (percentage : ℤ) : List String :=
  (if 90 ≤ percentage then [excellentMessage] else []) ++
  (if 70 ≤ percentage ∧ percentage < 90 then [greatJobMessage] else []) ++
  (if percentage < 70 then [keepStudyingMessage] else [])

/-- `const FREE_UPLOAD_LIMIT = 6` in the Upload page. -/
def FREE_UPLOAD_LIMIT : Nat := 6

/-- `const hasReachedLimit = !isPremium && uploadCount >= FREE_UPLOAD_LIMIT`. -/
def hasReachedLimit (isPremium : Bool) (uploadCount : Nat) : Bool :=
  !isPremium && decide (FREE_UPLOAD_LIMIT ≤ uploadCount)

/-- The externally visible steps `handleUpload` can take, in order. -/
inductive UploadAction where
  | toastLimitReached
  | storeFile
  | insertRecord
  | invokeProcessing
  | toastSuccess
  | navigateAfterUpload
deriving DecidableEq, Repr

/-- The control flow of `handleUpload` as the trace of steps it performs:
nothing without a file and a user; only the limit toast when
`hasReachedLimit`; otherwise the storage upload, the `uploads` row insert,
the `process-upload` invocation, the success toast and the navigation. -/
def handleUpload (hasFile hasUser isPremium : Bool) (uploadCount : Nat) :
    List UploadAction :=
  if !hasFile || !hasUser then []
  else if hasReachedLimit isPremium uploadCount then [UploadAction.toastLimitReached]
  else [UploadAction.storeFile, UploadAction.insertRecord,
        UploadAction.invokeProcessing, UploadAction.toastSuccess,
        UploadAction.navigateAfterUpload]

/-- The question-building loop in state-passing form: the state is the
contents of the caller's `flashcards` array (the only array that exists
before the call), which the loop body reads again on every iteration. -/
def mapQuestionsST (r : Shuffler) :
    List (Nat × Flashcard) → StateM (List Flashcard) (List QuizQuestion)
  | [] => pure []
  | p :: rest => do
    let current ← get
    let q := mkQuestion r current p.1 p.2
    let qs ← mapQuestionsST r rest
    pure (q :: qs)

/-- `generateQuestionsFromFlashcards` in state-passing form over the
caller's array: `[...flashcards]` copies the contents, the comparator sort
permutes only the copy, and the per-card loop re-reads the array. -/
def generateQuestionsFromFlashcardsST (r : Shuffler) :
    StateM (List Flashcard) (List QuizQuestion) := do
  let flashcards ← get
  let copy := flashcards
  let shuffled := r.shuffleCards copy
  let numQuestions := min 10 flashcards.length
  mapQuestionsST r ((shuffled.take numQuestions).enum)

/-- The four-capital example flashcard set from the documentation. -/
def fcsExample : List Flashcard :=
  [⟨"Capital of France?", "Paris"⟩, ⟨"Capital of Japan?", "Tokyo"⟩,
   ⟨"Capital of Italy?", "Rome"⟩, ⟨"Capital of Spain?", "Madrid"⟩]

/-- Five flashcards with a repeated answer `B` but three distinct wrong
answers (`B`, `C`, `D`) for the first card. -/
def fcsDup : List Flashcard :=
  [⟨"q0", "X"⟩, ⟨"q1", "B"⟩, ⟨"q2", "B"⟩, ⟨"q3", "C"⟩, ⟨"q4", "D"⟩]

/-- Four flashcards where three share the answer `A`, so an `A` card has a
single distinct-answer candidate. -/
def fcsRep : List Flashcard :=
  [⟨"q0", "A"⟩, ⟨"q1", "A"⟩, ⟨"q2", "A"⟩, ⟨"q3", "B"⟩]

/-- Three flashcards: one below the minimum the quiz needs. -/
def fcsThree : List Flashcard :=
  [⟨"Capital of France?", "Paris"⟩, ⟨"Capital of Japan?", "Tokyo"⟩,
   ⟨"Capital of Italy?", "Rome"⟩]

/-- Eleven flashcards with pairwise distinct answers. -/
def fcsEleven : List Flashcard :=
  [⟨"q0", "a0"⟩, ⟨"q1", "a1"⟩, ⟨"q2", "a2"⟩, ⟨"q3", "a3"⟩, ⟨"q4", "a4"⟩,
   ⟨"q5", "a5"⟩, ⟨"q6", "a6"⟩, ⟨"q7", "a7"⟩, ⟨"q8", "a8"⟩, ⟨"q9", "a9"⟩,
   ⟨"q10", "a10"⟩]

/-- The first question generated from the documentation's example set under
the identity shuffles. -/
def qExampleC1 : QuizQuestion :=
  mkQuestion idShuffler fcsExample 0 ⟨"Capital of France?", "Paris"⟩

/-- The second question generated from the documentation's example set under
the identity shuffles. -/
def qExampleC3 : QuizQuestion :=
  mkQuestion idShuffler fcsExample 1 ⟨"Capital of Japan?", "Tokyo"⟩

/-- A sample generated question: the correct answer at index 0. -/
def qParis : QuizQuestion :=
  ⟨"Capital of France?", ["Paris", "Tokyo", "Rome", "Madrid"], 0⟩

/-- A fresh one-question session, before any answer is selected. -/
def exampleQuizState : QuizState :=
  { questions := [qParis]
    currentQuestion := 0
    selectedAnswer := none
    showResult := false
    score := 0
    answered := false
    quizComplete := false }

theorem idShuffler_isShuffle : idShuffler.IsShuffle :=
  ⟨fun _ => List.Perm.refl _, fun _ _ => List.Perm.refl _, fun _ _ => List.Perm.refl _⟩

theorem mem_wrongAnswers {flashcards : List Flashcard} {card : Flashcard} {a : String}
    (h : a ∈ wrongAnswers flashcards card) :
    a ≠ card.answer ∧ ∃ f ∈ flashcards, f.answer = a := by
  simp only [wrongAnswers, List.mem_map, List.mem_filter, bne_iff_ne] at h
  obtain ⟨f, ⟨hf, hne⟩, rfl⟩ := h
  exact ⟨hne, f, hf, rfl⟩

theorem mkQuestion_options_perm (r : Shuffler) (hr : r.IsShuffle)
    (flashcards : List Flashcard) (i : Nat) (card : Flashcard) :
    (mkQuestion r flashcards i card).options.Perm
      ((r.shuffleAnswers i (wrongAnswers flashcards card)).take 3 ++ [card.answer]) :=
  hr.2.2 i _

theorem mem_take_shuffleAnswers (r : Shuffler) (hr : r.IsShuffle)
    {flashcards : List Flashcard} {card : Flashcard} {i : Nat} {a : String}
    (h : a ∈ (r.shuffleAnswers i (wrongAnswers flashcards card)).take 3) :
    a ∈ wrongAnswers flashcards card :=
  (hr.2.1 i _).mem_iff.mp ((List.take_sublist 3 _).subset h)

theorem mkQuestion_count_correct (r : Shuffler) (hr : r.IsShuffle)
    (flashcards : List Flashcard) (i : Nat) (card : Flashcard) :
    (mkQuestion r flashcards i card).options.count card.answer = 1 := by
  rw [(mkQuestion_options_perm r hr flashcards i card).count_eq, List.count_append,
    List.count_singleton_self,
    List.count_eq_zero_of_not_mem
      (fun h => (mem_wrongAnswers (mem_take_shuffleAnswers r hr h)).1 rfl)]

theorem mkQuestion_answer_mem (r : Shuffler) (hr : r.IsShuffle)
    (flashcards : List Flashcard) (i : Nat) (card : Flashcard) :
    card.answer ∈ (mkQuestion r flashcards i card).options :=
  (mkQuestion_options_perm r hr flashcards i card).mem_iff.mpr
    (List.mem_append_right _ (List.mem_singleton_self _))

theorem mem_generateQuestions (r : Shuffler) (hr : r.IsShuffle)
    {flashcards : List Flashcard} {q : QuizQuestion}
    (hq : q ∈ generateQuestionsFromFlashcards r flashcards) :
    ∃ i card, card ∈ flashcards ∧ q = mkQuestion r flashcards i card := by
  simp only [generateQuestionsFromFlashcards, List.mem_map] at hq
  obtain ⟨⟨i, card⟩, hp, rfl⟩ := hq
  refine ⟨i, card, ?_, rfl⟩
  have hmem : card ∈ (r.shuffleCards flashcards).take (min 10 flashcards.length) := by
    have := List.mem_enum_iff_getElem?.mp hp
    exact List.getElem?_mem this
  exact (hr.1 flashcards).mem_iff.mp ((List.take_sublist _ _).subset hmem)

/-- C1: for every list of flashcards and every QuizQuestion the generator
produces from it, exactly one entry of the question's options equals the
source flashcard's answer, and `correctAnswer` is the index of that entry
(`options[correctAnswer]` equals the source flashcard's answer). -/
theorem quizQuestion_correctAnswer_unique (r : Shuffler) (hr : r.IsShuffle)
    (flashcards : List Flashcard) (q : QuizQuestion)
    (hq : q ∈ generateQuestionsFromFlashcards r flashcards) :
    ∃ card ∈ flashcards, q.question = card.question ∧
      q.options.count card.answer = 1 ∧
      ∃ h : q.correctAnswer < q.options.length,
        q.options.get ⟨q.correctAnswer, h⟩ = card.answer := by
  obtain ⟨i, card, hcard, rfl⟩ := mem_generateQuestions r hr hq
  refine ⟨card, hcard, rfl, mkQuestion_count_correct r hr flashcards i card, ?_⟩
  have hmem := mkQuestion_answer_mem r hr flashcards i card
  have hlt : (mkQuestion r flashcards i card).options.indexOf card.answer <
      (mkQuestion r flashcards i card).options.length :=
    List.indexOf_lt_length.mpr hmem
  exact ⟨hlt, List.indexOf_get hlt⟩

theorem quizQuestion_correctAnswer_unique_witness :
    ∃ card ∈ fcsExample, qExampleC1.question = card.question ∧
      qExampleC1.options.count card.answer = 1 ∧
      ∃ h : qExampleC1.correctAnswer < qExampleC1.options.length,
        qExampleC1.options.get ⟨qExampleC1.correctAnswer, h⟩ = card.answer :=
  quizQuestion_correctAnswer_unique idShuffler idShuffler_isShuffle fcsExample
    qExampleC1 (by decide)

/-- C2: with fewer than 4 flashcards, quiz generation produces no questions
and surfaces the user-facing toast together with the redirect away from the
quiz view; with at least 4 flashcards this failure is not raised. -/
theorem generateQuiz_insufficient_data (r : Shuffler) (flashcards : List Flashcard) :
    (flashcards.length < 4 →
      generateQuiz r flashcards = Except.error insufficientDataError ∧
      insufficientDataError.description =
        "Need at least 4 flashcards to generate a quiz" ∧
      insufficientDataError.redirectTo = "/dashboard") ∧
    (4 ≤ flashcards.length →
      ∃ qs, generateQuiz r flashcards = Except.ok qs) := by
  constructor
  · intro h
    exact ⟨by simp [generateQuiz, h], rfl, rfl⟩
  · intro h
    exact ⟨generateQuestionsFromFlashcards r flashcards,
      by simp [generateQuiz, Nat.not_lt.mpr h]⟩

theorem generateQuiz_insufficient_data_witness :
    (fcsThree.length < 4 ∧
      generateQuiz idShuffler fcsThree = Except.error insufficientDataError) ∧
    (4 ≤ fcsExample.length ∧
      ∃ qs, generateQuiz idShuffler fcsExample = Except.ok qs) :=
  ⟨⟨by decide,
      (((generateQuiz_insufficient_data idShuffler fcsThree).1) (by decide)).1⟩,
   ⟨by decide,
      ((generateQuiz_insufficient_data idShuffler fcsExample).2) (by decide)⟩⟩

theorem generateQuestions_length (r : Shuffler) (hr : r.IsShuffle)
    (flashcards : List Flashcard) :
    (generateQuestionsFromFlashcards r flashcards).length = min 10 flashcards.length := by
  simp only [generateQuestionsFromFlashcards, List.length_map, List.enum_length,
    List.length_take, (hr.1 flashcards).length_eq]
  omega

/-- C5: with at least 4 flashcards the number of generated questions equals
`min 10 (number of flashcards)`; in particular 4 cards yield 4 questions and
more than 10 cards yield exactly 10. -/
theorem generateQuiz_question_count (r : Shuffler) (hr : r.IsShuffle)
    (flashcards : List Flashcard) (h4 : 4 ≤ flashcards.length) :
    ∃ qs, generateQuiz r flashcards = Except.ok qs ∧
      qs.length = min 10 flashcards.length ∧
      (flashcards.length = 4 → qs.length = 4) ∧
      (10 < flashcards.length → qs.length = 10) := by
  refine ⟨generateQuestionsFromFlashcards r flashcards,
    by simp [generateQuiz, Nat.not_lt.mpr h4], generateQuestions_length r hr flashcards,
    ?_, ?_⟩
  · intro h
    rw [generateQuestions_length r hr flashcards, h]
    decide
  · intro h
    rw [generateQuestions_length r hr flashcards]
    omega

theorem generateQuiz_question_count_witness :
    4 ≤ fcsEleven.length ∧
    ∃ qs, generateQuiz idShuffler fcsEleven = Except.ok qs ∧
      qs.length = min 10 fcsEleven.length ∧
      (fcsEleven.length = 4 → qs.length = 4) ∧
      (10 < fcsEleven.length → qs.length = 10) :=
  ⟨by decide,
   generateQuiz_question_count idShuffler idShuffler_isShuffle fcsEleven (by decide)⟩

/-- C3 counterexample: in `fcsDup` the first card has three distinct wrong
answers available (`B`, `C`, `D`), yet under a lawful shuffle the generated
options list the duplicate distractor `B` twice. -/
theorem quiz_distinct_distractors_cex :
    idShuffler.IsShuffle ∧
    3 ≤ (wrongAnswers fcsDup ⟨"q0", "X"⟩).dedup.length ∧
    ((generateQuestionsFromFlashcards idShuffler fcsDup).head?.map
        QuizQuestion.options) = some ["B", "B", "C", "X"] :=
  ⟨idShuffler_isShuffle, by decide, by decide⟩

/-- C3 (amended): every option other than the correct answer is the answer of
another flashcard and differs from the correct answer by value; and whenever
all answers in the input set are pairwise distinct, no two options of any
generated question are textually identical. -/
theorem quiz_distractors_sourced_and_distinct (r : Shuffler) (hr : r.IsShuffle)
    (flashcards : List Flashcard) (q : QuizQuestion)
    (hq : q ∈ generateQuestionsFromFlashcards r flashcards) :
    ∃ card ∈ flashcards, q.question = card.question ∧
      (∀ opt ∈ q.options, opt ≠ card.answer →
        ∃ f ∈ flashcards, f.answer = opt ∧ f.answer ≠ card.answer) ∧
      ((flashcards.map (fun f => f.answer)).Nodup → q.options.Nodup) := by
  obtain ⟨i, card, hcard, rfl⟩ := mem_generateQuestions r hr hq
  refine ⟨card, hcard, rfl, ?_, ?_⟩
  · intro opt hopt hne
    have h1 : opt ∈ (r.shuffleAnswers i (wrongAnswers flashcards card)).take 3 ++
        [card.answer] :=
      (mkQuestion_options_perm r hr flashcards i card).mem_iff.mp hopt
    rcases List.mem_append.mp h1 with h2 | h2
    · obtain ⟨hne2, f, hf, hfa⟩ := mem_wrongAnswers (mem_take_shuffleAnswers r hr h2)
      exact ⟨f, hf, hfa, hfa ▸ hne2⟩
    · exact absurd (List.mem_singleton.mp h2) hne
  · intro hnd
    have hW : (wrongAnswers flashcards card).Nodup := by
      have hs : List.Sublist
          ((flashcards.filter (fun f => f.answer != card.answer)).map
            (fun f => f.answer))
          (flashcards.map (fun f => f.answer)) :=
        (List.filter_sublist _).map _
      exact hs.nodup hnd
    have hSh : (r.shuffleAnswers i (wrongAnswers flashcards card)).Nodup :=
      ((hr.2.1 i _).nodup_iff).mpr hW
    have hS : ((r.shuffleAnswers i (wrongAnswers flashcards card)).take 3).Nodup :=
      (List.take_sublist 3 _).nodup hSh
    have happ : (((r.shuffleAnswers i (wrongAnswers flashcards card)).take 3) ++
        [card.answer]).Nodup := by
      refine hS.append (List.nodup_singleton _) ?_
      rw [List.disjoint_singleton]
      exact fun h => (mem_wrongAnswers (mem_take_shuffleAnswers r hr h)).1 rfl
    exact ((mkQuestion_options_perm r hr flashcards i card).nodup_iff).mpr happ

theorem quiz_distractors_sourced_and_distinct_witness :
    ∃ card ∈ fcsExample, qExampleC3.question = card.question ∧
      (∀ opt ∈ qExampleC3.options, opt ≠ card.answer →
        ∃ f ∈ fcsExample, f.answer = opt ∧ f.answer ≠ card.answer) ∧
      ((fcsExample.map (fun f => f.answer)).Nodup → qExampleC3.options.Nodup) :=
  quiz_distractors_sourced_and_distinct idShuffler idShuffler_isShuffle fcsExample
    qExampleC3 (by decide)

/-- C4: the four-card set `fcsRep` has at least 4 cards, its first card has
fewer than 3 distinct-answer candidates among the other cards, and the
generator succeeds without any error while producing a question with fewer
than 4 options. -/
theorem quiz_fewer_options_silent :
    4 ≤ fcsRep.length ∧
    (wrongAnswers fcsRep ⟨"q0", "A"⟩).length < 3 ∧
    ∃ qs, generateQuiz idShuffler fcsRep = Except.ok qs ∧
      ∃ q ∈ qs, q.options.length < 4 := by
  refine ⟨by decide, by decide,
    generateQuestionsFromFlashcards idShuffler fcsRep, rfl, ?_⟩
  exact ⟨mkQuestion idShuffler fcsRep 0 ⟨"q0", "A"⟩, by decide, by decide⟩

/-- C6: with at least 4 flashcards and at least 3 distinct non-matching
answers per card, quiz generation succeeds with between 1 and 10 questions,
each with exactly 4 options and a `correctAnswer` within `[0, 3]`. -/
theorem generateQuiz_wellFormed (r : Shuffler) (hr : r.IsShuffle)
    (flashcards : List Flashcard) (h4 : 4 ≤ flashcards.length)
    (hd : ∀ card ∈ flashcards, 3 ≤ (wrongAnswers flashcards card).dedup.length) :
    ∃ qs, generateQuiz r flashcards = Except.ok qs ∧
      1 ≤ qs.length ∧ qs.length ≤ 10 ∧
      ∀ q ∈ qs, q.options.length = 4 ∧ q.correctAnswer < 4 := by
  refine ⟨generateQuestionsFromFlashcards r flashcards,
    by simp [generateQuiz, Nat.not_lt.mpr h4], ?_, ?_, ?_⟩
  · rw [generateQuestions_length r hr flashcards]
    omega
  · rw [generateQuestions_length r hr flashcards]
    omega
  · intro q hq
    obtain ⟨i, card, hcard, rfl⟩ := mem_generateQuestions r hr hq
    have hWlen : 3 ≤ (wrongAnswers flashcards card).length :=
      le_trans (hd card hcard) (List.Sublist.length_le (List.dedup_sublist _))
    have hopt : (mkQuestion r flashcards i card).options.length = 4 := by
      rw [(mkQuestion_options_perm r hr flashcards i card).length_eq,
        List.length_append, List.length_take, (hr.2.1 i _).length_eq,
        Nat.min_eq_left hWlen]
      rfl
    refine ⟨hopt, ?_⟩
    have hmem := mkQuestion_answer_mem r hr flashcards i card
    have hlt := List.indexOf_lt_length.mpr hmem
    exact hopt ▸ hlt

theorem generateQuiz_wellFormed_witness :
    (4 ≤ fcsExample.length ∧
      ∀ card ∈ fcsExample, 3 ≤ (wrongAnswers fcsExample card).dedup.length) ∧
    ∃ qs, generateQuiz idShuffler fcsExample = Except.ok qs ∧
      1 ≤ qs.length ∧ qs.length ≤ 10 ∧
      ∀ q ∈ qs, q.options.length = 4 ∧ q.correctAnswer < 4 :=
  ⟨⟨by decide, by decide⟩,
   generateQuiz_wellFormed idShuffler idShuffler_isShuffle fcsExample
     (by decide) (by decide)⟩

/-- C7: within a session, `handleAnswer` increments the score by exactly 1
when the selected index equals the current question's `correctAnswer` and
leaves it unchanged otherwise, and the reported final percentage equals
`round(score / total × 100)`. -/
theorem handleAnswer_score_and_percentage (s : QuizState) (index : Nat)
    (q : QuizQuestion) (hq : s.questions.get? s.currentQuestion = some q)
    (ha : s.answered = false) :
    ((index = q.correctAnswer → (handleAnswer s index).score = s.score + 1) ∧
     (index ≠ q.correctAnswer → (handleAnswer s index).score = s.score)) ∧
    quizPercentage s.score s.questions.length =
      round ((s.score : ℚ) / (s.questions.length : ℚ) * 100) := by
  rw [List.get?_eq_getElem?] at hq
  refine ⟨⟨?_, ?_⟩, ?_⟩
  · intro h
    simp [handleAnswer, ha, hq, h]
  · intro h
    simp [handleAnswer, ha, hq, h]
  · rw [quizPercentage, jsRound, round_eq]

theorem handleAnswer_score_and_percentage_witness :
    (exampleQuizState.questions.get? exampleQuizState.currentQuestion = some qParis ∧
      exampleQuizState.answered = false) ∧
    ((0 = qParis.correctAnswer →
        (handleAnswer exampleQuizState 0).score = exampleQuizState.score + 1) ∧
     (0 ≠ qParis.correctAnswer →
        (handleAnswer exampleQuizState 0).score = exampleQuizState.score)) ∧
    quizPercentage exampleQuizState.score exampleQuizState.questions.length =
      round ((exampleQuizState.score : ℚ) /
        (exampleQuizState.questions.length : ℚ) * 100) :=
  ⟨⟨rfl, rfl⟩,
   handleAnswer_score_and_percentage exampleQuizState 0 qParis rfl rfl⟩

/-- C8: the end-of-quiz message tier: at least 90 renders the excellent
message, 70 to 89 renders "Great job! Keep practicing!", below 70 renders
the keep-studying message; and a 10-question quiz with 7 correct selections
reports 70%, in the 70 to 89 band. -/
theorem resultMessage_tiers (p : ℤ) :
    (90 ≤ p → resultMessages p = [excellentMessage]) ∧
    (70 ≤ p → p < 90 → resultMessages p = [greatJobMessage]) ∧
    (p < 70 → resultMessages p = [keepStudyingMessage]) ∧
    (quizPercentage 7 10 = 70 ∧
      resultMessages (quizPercentage 7 10) = [greatJobMessage]) := by
  have h710 : quizPercentage 7 10 = 70 := by
    rw [quizPercentage, jsRound, Int.floor_eq_iff]
    constructor <;> norm_num
  refine ⟨?_, ?_, ?_, h710, ?_⟩
  · intro h
    rw [resultMessages, if_pos h, if_neg (by omega), if_neg (by omega)]
    rfl
  · intro h1 h2
    rw [resultMessages, if_neg (by omega), if_pos ⟨h1, h2⟩, if_neg (by omega)]
    rfl
  · intro h
    rw [resultMessages, if_neg (by omega), if_neg (by omega), if_pos h]
    rfl
  · rw [h710]
    decide

theorem resultMessage_tiers_witness :
    resultMessages 95 = [excellentMessage] ∧
    resultMessages 70 = [greatJobMessage] ∧
    resultMessages 69 = [keepStudyingMessage] :=
  ⟨(resultMessage_tiers 95).1 (by decide),
   (resultMessage_tiers 70).2.1 (by decide) (by decide),
   (resultMessage_tiers 69).2.2.1 (by decide)⟩

/-- C9: a premium user is never blocked by the upload-count limit, while a
non-premium user whose upload count is at least `FREE_UPLOAD_LIMIT` has the
upload rejected before any file is stored. -/
theorem upload_limit_policy :
    (∀ (hasFile hasUser : Bool) (uploadCount : Nat),
        UploadAction.toastLimitReached ∉
          handleUpload hasFile hasUser true uploadCount) ∧
    (∀ uploadCount : Nat, FREE_UPLOAD_LIMIT ≤ uploadCount →
        handleUpload true true false uploadCount =
          [UploadAction.toastLimitReached] ∧
        UploadAction.storeFile ∉ handleUpload true true false uploadCount) := by
  constructor
  · intro hasFile hasUser uploadCount
    cases hasFile <;> cases hasUser <;> simp [handleUpload, hasReachedLimit]
  · intro uploadCount h
    have hl : hasReachedLimit false uploadCount = true := by
      simp [hasReachedLimit, h]
    exact ⟨by simp [handleUpload, hl], by simp [handleUpload, hl]⟩

theorem upload_limit_policy_witness :
    UploadAction.toastLimitReached ∉ handleUpload true true true 7 ∧
    FREE_UPLOAD_LIMIT ≤ 6 ∧
    handleUpload true true false 6 = [UploadAction.toastLimitReached] ∧
    UploadAction.storeFile ∉ handleUpload true true false 6 :=
  ⟨upload_limit_policy.1 true true 7, by decide,
   (upload_limit_policy.2 6 (by decide)).1, (upload_limit_policy.2 6 (by decide)).2⟩

theorem mapQuestionsST_run (r : Shuffler) (l : List (Nat × Flashcard))
    (s : List Flashcard) :
    (mapQuestionsST r l).run s = (l.map (fun p => mkQuestion r s p.1 p.2), s) := by
  induction l with
  | nil => rfl
  | cons p rest ih =>
    have h : (mapQuestionsST r (p :: rest)).run s =
        (mkQuestion r s p.1 p.2 :: ((mapQuestionsST r rest).run s).1,
          ((mapQuestionsST r rest).run s).2) := rfl
    rw [h, ih]
    rfl

/-- C10: quiz generation has no side effect on its input: run over the
caller's flashcard array, it leaves the array's contents (every question and
answer) unchanged, and its output equals a function of the input list and
the supplied random source alone. -/
theorem generateQuestions_no_side_effects (r : Shuffler) (flashcards : List Flashcard) :
    (generateQuestionsFromFlashcardsST r).run flashcards =
      (generateQuestionsFromFlashcards r flashcards, flashcards) := by
  have h : (generateQuestionsFromFlashcardsST r).run flashcards =
      (mapQuestionsST r
        (((r.shuffleCards flashcards).take (min 10 flashcards.length)).enum)).run
        flashcards := rfl
  rw [h, mapQuestionsST_run]
  rfl
